import Mathlib

/-!
Verification of the `temporalite` facade (`server.go`, `options.go`).

The repository is a thin wrapper over an external workflow-orchestration
server.  We shallow-embed the code of the repository:

* `liteconfig.Config` becomes the structure `Config`; the functional options
  (`WithLogger`, `WithDatabaseFilePath`, ...) become functions
  `Config → Config`, and `NewServer`'s option loop becomes a left fold
  (`applyOptions`).
* External collaborators (`sqlite.SetupSchema`, `sqlite.CreateNamespaces`,
  `authorization.GetAuthorizerFromConfig`, `authorization.GetClaimMapperFromConfig`,
  `os.Stat`, `liteconfig.NewDefaultConfig`) are modelled as an environment
  `Env` of oracle results; `NewServer` consumes the environment and, besides
  its `Except` result, produces a `Trace` recording which external calls it
  made and with which arguments.
* `go` `time.Duration` and `time.Time` are modelled as `Int` nanosecond
  counts; a `context.Context` is modelled by its optional absolute deadline.
* opaque references (the logger, the interrupt channel, the authorizer and
  claim-mapper handles, client interceptors) are modelled by abstract
  identifiers of type `Nat` — no claim inspects their structure.
-/

/-- Embedding of `liteconfig.Config` (the user-facing configuration model).
The logger and the interrupt-channel option are opaque to this layer and are
modelled by abstract identifiers. -/
structure Config where
  Ephemeral : Bool
  DatabaseFilePath : String
  FrontendPort : Nat
  DynamicPorts : Bool
  Namespaces : List String
  Logger : Nat
  InterruptOn : Option Nat
  deriving Repr, DecidableEq

/-- Modelled from the spec: `liteconfig.NewDefaultConfig` lives in
`internal/liteconfig`, which is not under `src/`.  Per the spec the frontend
service listens on port 7233 unless overridden, the namespace list starts
empty and no interrupt channel is registered; the spec does not pin the
default persistence mode or database path, so those fields carry neutral
values here.  (The claims settled against this default do not depend on the
unspecified fields.) -/
def defaultConfig : Config :=
  { Ephemeral := false
  , DatabaseFilePath := ""
  , FrontendPort := 7233
  , DynamicPorts := false
  , Namespaces := []
  , Logger := 0
  , InterruptOn := none }

/-- `ServerOption` is an interface with a single method `apply(*liteconfig.Config)`;
every constructor in `options.go` wraps a mutation closure in an
`applyFuncContainer`.  We embed a `ServerOption` directly as the mutation it
applies. -/
def ServerOption : Type := Config → Config

/-- `WithLogger` overrides the default logger (`options.go`). -/
def WithLogger (logger : Nat) : ServerOption :=
  fun cfg => { cfg with Logger := logger }

/-- `WithDatabaseFilePath` persists state to the file at the specified path:
it clears `Ephemeral` and sets `DatabaseFilePath` (`options.go`). -/
def WithDatabaseFilePath (filepath : String) : ServerOption :=
  fun cfg => { cfg with Ephemeral := false, DatabaseFilePath := filepath }

/-- `WithPersistenceDisabled` switches to the in-memory storage driver
(`options.go`). -/
def WithPersistenceDisabled : ServerOption :=
  fun cfg => { cfg with Ephemeral := true }

/-- `WithFrontendPort` sets the frontend listening port (`options.go`). -/
def WithFrontendPort (port : Nat) : ServerOption :=
  fun cfg => { cfg with FrontendPort := port }

/-- `WithDynamicPorts` requests system-chosen ports (`options.go`). -/
def WithDynamicPorts : ServerOption :=
  fun cfg => { cfg with DynamicPorts := true }

/-- `WithNamespaces` appends its arguments to the configured namespace list
(`cfg.Namespaces = append(cfg.Namespaces, namespaces...)` in `options.go`). -/
def WithNamespaces (namespaces : List String) : ServerOption :=
  fun cfg => { cfg with Namespaces := cfg.Namespaces ++ namespaces }

/-- `WithInterruptOn` registers an interrupt channel (`options.go`); the
channel value is opaque here. -/
def WithInterruptOn (interruptCh : Nat) : ServerOption :=
  fun cfg => { cfg with InterruptOn := some interruptCh }

/-- The option loop of `NewServer` (`server.go` lines 39–41):
`for _, opt := range opts { opt.apply(c) }` — a left fold of the mutations
over the configuration, in the order passed. -/
def applyOptions (c : Config) (opts : List ServerOption) : Config :=
  opts.foldl (fun cfg o => o cfg) c

/-- Modelled from the spec: `liteconfig.Convert` lives in `internal/liteconfig`,
which is not under `src/`.  Per the spec it is a pure, deterministic conversion
of the configuration model into the external server's full configuration: it
sets cluster metadata to a single fixed current-cluster identity and binds the
chosen frontend port into the public-client address.  Only the fields that
`server.go` reads from the converted configuration are modelled. -/
structure ConvertedConfig where
  CurrentClusterName : String
  PublicClientHostPort : String
  deriving Repr, DecidableEq

/-- Modelled from the spec (see `ConvertedConfig`): the fixed current-cluster
identity and the frontend address derived from the chosen port. -/
def Convert (c : Config) : ConvertedConfig :=
  { CurrentClusterName := "active"
  , PublicClientHostPort := "localhost:" ++ toString c.FrontendPort }

/-- Embedding of `*sqlite.NamespaceConfig` as built by
`sqlite.NewNamespaceConfig(clusterName, ns, false)` in `server.go` line 59:
the external constructor is opaque, so the descriptor is modelled by exactly
the arguments handed to it. -/
structure NamespaceConfig where
  clusterName : String
  name : String
  detached : Bool
  deriving Repr, DecidableEq

/-- Outcome of `os.Stat(c.DatabaseFilePath)` as discriminated by `server.go`
line 50: the stat succeeds, fails with a does-not-exist error
(`os.IsNotExist(err)` true), or fails with some other error. -/
inductive StatResult where
  | statOk
  | notExist
  | otherError (e : String)
  deriving Repr, DecidableEq

/-- Results of the external calls `NewServer` makes, fixed per construction
attempt.  Authorizer and claim-mapper handles are opaque (`Nat`). -/
structure Env where
  newDefaultConfig : Except String Config
  stat : String → StatResult
  setupSchema : Except String Unit
  createNamespaces : Except String Unit
  getAuthorizer : Except String Nat
  getClaimMapper : Except String Nat

/-- A `fmt.Errorf("<label>%w", cause)` error as produced by `NewServer`:
`label` is the literal format text in front of the wrapped cause, and `cause`
the underlying error. -/
structure WrappedError where
  label : String
  cause : String
  deriving Repr, DecidableEq

/-- The full message of a wrapped error, as `fmt.Errorf` renders it. -/
def WrappedError.message (e : WrappedError) : String :=
  e.label ++ e.cause

/-- Embedding of the `Server` struct (`server.go` lines 23–27).  The wrapped
`temporal.Server` handle is external and opaque; the fields the claims read
are the resolved frontend address and the originating configuration. -/
structure Server where
  frontendHostPort : String
  config : Config
  deriving Repr, DecidableEq

/-- Record of the external calls `NewServer` performed: whether
`sqlite.SetupSchema` was invoked, and — when `sqlite.CreateNamespaces` was
invoked — the exact namespace-descriptor list passed to it (`none` when the
call was never reached). -/
structure Trace where
  schemaSetupRan : Bool
  createNamespacesArg : Option (List NamespaceConfig)
  deriving Repr, DecidableEq

/-- The straight-line tail of `NewServer` (`server.go` lines 56–95), entered
after the conditional schema setup: build one namespace descriptor per
configured namespace, call `sqlite.CreateNamespaces`, construct the
authorizer and the claim mapper, and assemble the `Server` value.  `ran`
records whether schema setup was invoked earlier. -/
def newServerTail (c : Config) (cfg : ConvertedConfig) (ran : Bool)
    (createRes : Except String Unit) (authRes : Except String Nat)
    (cmRes : Except String Nat) : Trace × Except WrappedError Server :=
  let namespaces := c.Namespaces.map
    (fun ns => NamespaceConfig.mk cfg.CurrentClusterName ns false)
  match createRes with
  | .error e =>
    (⟨ran, some namespaces⟩, .error ⟨"error creating namespaces: ", e⟩)
  | .ok _ =>
    match authRes with
    | .error e =>
      (⟨ran, some namespaces⟩, .error ⟨"unable to instantiate authorizer: ", e⟩)
    | .ok _ =>
      match cmRes with
      | .error e =>
        (⟨ran, some namespaces⟩,
          .error ⟨"unable to instantiate claim mapper: ", e⟩)
      | .ok _ =>
        (⟨ran, some namespaces⟩,
          .ok { frontendHostPort := cfg.PublicClientHostPort, config := c })

/-- Embedding of `NewServer` (`server.go` lines 34–96).  Besides the
`Except` result it returns the `Trace` of external calls.  Mirrors the Go
control flow: default config, option loop, conversion, conditional schema
setup (`if c.Ephemeral { ... } else if os.IsNotExist(os.Stat(...)) { ... }`),
then the straight-line tail. -/
def NewServer (opts : List ServerOption) (env : Env) :
    Trace × Except WrappedError Server :=
  match env.newDefaultConfig with
  | .error e => (⟨false, none⟩, .error ⟨"", e⟩)
  | .ok c0 =>
    let c := applyOptions c0 opts
    let cfg := Convert c
    if c.Ephemeral then
      match env.setupSchema with
      | .error e => (⟨true, none⟩, .error ⟨"error setting up schema: ", e⟩)
      | .ok _ =>
        newServerTail c cfg true env.createNamespaces env.getAuthorizer
          env.getClaimMapper
    else
      match env.stat c.DatabaseFilePath with
      | .notExist =>
        match env.setupSchema with
        | .error e => (⟨true, none⟩, .error ⟨"error setting up schema: ", e⟩)
        | .ok _ =>
          newServerTail c cfg true env.createNamespaces env.getAuthorizer
            env.getClaimMapper
      | _ =>
        newServerTail c cfg false env.createNamespaces env.getAuthorizer
          env.getClaimMapper

/-- Embedding of `client.ConnectionOptions` (only the two fields `server.go`
sets).  `HealthCheckTimeout` is a `time.Duration` in nanoseconds. -/
structure ConnectionOptions where
  DisableHealthCheck : Bool
  HealthCheckTimeout : Int
  deriving Repr, DecidableEq

/-- Embedding of `client.Options`: the fields `server.go` touches
(`HostPort`, `ConnectionOptions`) plus representative caller-owned fields
(`Namespace`, `Identity`, `Interceptors`) that it must leave alone. -/
structure ClientOptions where
  HostPort : String
  Namespace : String
  Identity : String
  Interceptors : List Nat
  ConnectionOptions : ConnectionOptions
  deriving Repr, DecidableEq

/-- A `context.Context` as observed by this layer: only its optional absolute
deadline (`ctx.Deadline()`), in nanoseconds. -/
structure Context where
  deadline : Option Int
  deriving Repr, DecidableEq

/-- `time.Minute` in nanoseconds. -/
def timeMinute : Int := 60 * 1000000000

/-- Embedding of `timeoutFromContext` (`server.go` lines 128–133):
`deadline.Sub(time.Now())` when the context carries a deadline, the default
otherwise.  `now` is the value of `time.Now()` at the call. -/
def timeoutFromContext (ctx : Context) (now : Int) (defaultTimeout : Int) : Int :=
  match ctx.deadline with
  | some deadline => deadline - now
  | none => defaultTimeout

/-- Embedding of `NewClientWithOptions` (`server.go` lines 119–126) up to the
external `client.NewClient` call: it returns the `client.Options` value that
is handed to client construction, after the facade overwrites `HostPort` and
`ConnectionOptions`. -/
def NewClientWithOptions (s : Server) (ctx : Context) (now : Int)
    (options : ClientOptions) : ClientOptions :=
  { options with
    HostPort := s.frontendHostPort
    ConnectionOptions :=
      { DisableHealthCheck := false
      , HealthCheckTimeout := timeoutFromContext ctx now timeMinute } }

/-- Embedding of `NewClient` (`server.go` lines 110–112): delegates to
`NewClientWithOptions` with a zero `client.Options` carrying only the
namespace. -/
def NewClient (s : Server) (ctx : Context) (now : Int) (ns : String) :
    ClientOptions :=
  NewClientWithOptions s ctx now
    { HostPort := "", Namespace := ns, Identity := ""
    , Interceptors := [], ConnectionOptions := ⟨false, 0⟩ }

/-- The documented option combinators of `options.go`, as first-class syntax
so that claims can quantify over every sequence of them. -/
inductive DocumentedOption where
  | logger (l : Nat)
  | databaseFilePath (p : String)
  | persistenceDisabled
  | frontendPort (p : Nat)
  | dynamicPorts
  | namespaces (ns : List String)
  | interruptOn (ch : Nat)
  deriving Repr, DecidableEq

/-- Interpretation of a documented combinator as the `ServerOption` the
corresponding constructor in `options.go` returns. -/
def DocumentedOption.toServerOption : DocumentedOption → ServerOption
  | .logger l => WithLogger l
  | .databaseFilePath p => WithDatabaseFilePath p
  | .persistenceDisabled => WithPersistenceDisabled
  | .frontendPort p => WithFrontendPort p
  | .dynamicPorts => WithDynamicPorts
  | .namespaces ns => WithNamespaces ns
  | .interruptOn ch => WithInterruptOn ch

/-- A configuration is in ephemeral mode exactly when its `Ephemeral` flag is
set; this is the flag `NewServer` branches on (`server.go` line 46). -/
def isEphemeralMode (c : Config) : Bool := c.Ephemeral

/-- A configuration is file-backed exactly when it is not ephemeral: the
`else` branch of `NewServer`'s bootstrap (`server.go` line 50) is the only
reader of `DatabaseFilePath`. -/
def isFileBackedMode (c : Config) : Bool := !c.Ephemeral

/-- The persistence-mode invariant of the spec: exactly one of the two modes
is active. -/
def persistenceModeInvariant (c : Config) : Prop :=
  (isEphemeralMode c = true ∧ ¬ isFileBackedMode c = true) ∨
  (¬ isEphemeralMode c = true ∧ isFileBackedMode c = true)

/-- An environment in which every external call succeeds; used to instantiate
theorems at concrete inputs. -/
def envAllOk : Env :=
  { newDefaultConfig := .ok defaultConfig
  , stat := fun _ => .statOk
  , setupSchema := .ok ()
  , createNamespaces := .ok ()
  , getAuthorizer := .ok 0
  , getClaimMapper := .ok 0 }

theorem newServerTail_trace (c : Config) (cfg : ConvertedConfig) (ran : Bool)
    (createRes : Except String Unit) (authRes : Except String Nat)
    (cmRes : Except String Nat) :
    (newServerTail c cfg ran createRes authRes cmRes).1 =
      ⟨ran, some (c.Namespaces.map
        (fun ns => NamespaceConfig.mk cfg.CurrentClusterName ns false))⟩ := by
  unfold newServerTail
  cases createRes <;> cases authRes <;> cases cmRes <;> rfl

/-- C1: In `NewServer`, schema setup (`sqlite.SetupSchema`) runs on every
construction when the configuration is ephemeral; when the configuration is
file-backed, schema setup runs if and only if the database file at
`DatabaseFilePath` does not yet exist (its stat fails with a does-not-exist
error), and is skipped when the file exists. -/
theorem newServer_schemaSetup_condition (opts : List ServerOption) (env : Env)
    (c0 : Config) (h : env.newDefaultConfig = Except.ok c0) :
    ((applyOptions c0 opts).Ephemeral = true →
      (NewServer opts env).1.schemaSetupRan = true) ∧
    ((applyOptions c0 opts).Ephemeral = false →
      ((NewServer opts env).1.schemaSetupRan = true ↔
        env.stat (applyOptions c0 opts).DatabaseFilePath = StatResult.notExist)) := by
  constructor
  · intro hE
    simp only [NewServer, h, hE, if_true]
    cases hs : env.setupSchema with
    | error e => rfl
    | ok u => simp [newServerTail_trace]
  · intro hE
    simp only [NewServer, h, hE, Bool.false_eq_true, if_false]
    cases hstat : env.stat (applyOptions c0 opts).DatabaseFilePath with
    | notExist =>
      cases hs : env.setupSchema with
      | error e => simp
      | ok u => simp [newServerTail_trace]
    | statOk => simp [newServerTail_trace]
    | otherError e => simp [newServerTail_trace]

/-- Witness for C1 at concrete inputs: an ephemeral configuration runs schema
setup; a file-backed configuration runs it iff the stat reports not-exist. -/
theorem newServer_schemaSetup_condition_witness :
    (NewServer [WithPersistenceDisabled] envAllOk).1.schemaSetupRan = true ∧
    ((NewServer [WithDatabaseFilePath "x.db"] envAllOk).1.schemaSetupRan = true ↔
      envAllOk.stat
        (applyOptions defaultConfig [WithDatabaseFilePath "x.db"]).DatabaseFilePath =
        StatResult.notExist) :=
  ⟨(newServer_schemaSetup_condition [WithPersistenceDisabled] envAllOk
      defaultConfig rfl).1 rfl,
   (newServer_schemaSetup_condition [WithDatabaseFilePath "x.db"] envAllOk
      defaultConfig rfl).2 rfl⟩

/-- C2: For every caller-supplied `client.Options` value,
`NewClientWithOptions` overwrites `HostPort` with the facade's own frontend
host:port and overwrites the entire `ConnectionOptions` field, while leaving
every other field of the supplied options (namespace, identity, interceptors)
unchanged in the value passed to client construction. -/
theorem newClientWithOptions_overrides_network_fields_only (s : Server)
    (ctx : Context) (now : Int) (options : ClientOptions) :
    (NewClientWithOptions s ctx now options).HostPort = s.frontendHostPort ∧
    (NewClientWithOptions s ctx now options).ConnectionOptions =
      ⟨false, timeoutFromContext ctx now timeMinute⟩ ∧
    (NewClientWithOptions s ctx now options).Namespace = options.Namespace ∧
    (NewClientWithOptions s ctx now options).Identity = options.Identity ∧
    (NewClientWithOptions s ctx now options).Interceptors = options.Interceptors :=
  ⟨rfl, rfl, rfl, rfl, rfl⟩

/-- C3: The health-check timeout set by `NewClientWithOptions` equals the
remaining time until the context's deadline when the context carries one, and
equals the fixed default of one minute when it has none; in particular, for a
context whose deadline is at most 5 seconds away the resulting timeout is at
most 5 seconds. -/
theorem healthCheckTimeout_from_deadline :
    (∀ (s : Server) (ctx : Context) (now : Int) (options : ClientOptions)
        (d : Int), ctx.deadline = some d →
      (NewClientWithOptions s ctx now options).ConnectionOptions.HealthCheckTimeout
        = d - now) ∧
    (∀ (s : Server) (ctx : Context) (now : Int) (options : ClientOptions),
      ctx.deadline = none →
      (NewClientWithOptions s ctx now options).ConnectionOptions.HealthCheckTimeout
        = timeMinute) ∧
    (∀ (s : Server) (ctx : Context) (now : Int) (options : ClientOptions)
        (d : Int), ctx.deadline = some d → d ≤ now + 5 * 1000000000 →
      (NewClientWithOptions s ctx now options).ConnectionOptions.HealthCheckTimeout
        ≤ 5 * 1000000000) := by
  refine ⟨?_, ?_, ?_⟩
  · intro s ctx now options d hd
    simp [NewClientWithOptions, timeoutFromContext, hd]
  · intro s ctx now options hd
    simp [NewClientWithOptions, timeoutFromContext, hd]
  · intro s ctx now options d hd hle
    simp [NewClientWithOptions, timeoutFromContext, hd]
    omega

/-- A concrete facade instance used to instantiate client-side theorems. -/
def serverX : Server :=
  { frontendHostPort := "localhost:7233", config := defaultConfig }

/-- Concrete caller-supplied client options used to instantiate theorems. -/
def optsX : ClientOptions :=
  { HostPort := "elsewhere:1", Namespace := "ns1", Identity := "id1"
  , Interceptors := [1, 2], ConnectionOptions := ⟨true, 7⟩ }

/-- Witness for C3: a deadline 5 seconds away yields exactly the remaining
5 seconds (≤ 5 s); no deadline yields one minute. -/
theorem healthCheckTimeout_from_deadline_witness :
    (NewClientWithOptions serverX ⟨some 5000000000⟩ 0
        optsX).ConnectionOptions.HealthCheckTimeout = 5000000000 - 0 ∧
    (NewClientWithOptions serverX ⟨none⟩ 0
        optsX).ConnectionOptions.HealthCheckTimeout = timeMinute ∧
    (NewClientWithOptions serverX ⟨some 5000000000⟩ 0
        optsX).ConnectionOptions.HealthCheckTimeout ≤ 5 * 1000000000 :=
  ⟨healthCheckTimeout_from_deadline.1 serverX ⟨some 5000000000⟩ 0 optsX
      5000000000 rfl,
   healthCheckTimeout_from_deadline.2.1 serverX ⟨none⟩ 0 optsX rfl,
   healthCheckTimeout_from_deadline.2.2 serverX ⟨some 5000000000⟩ 0 optsX
      5000000000 rfl (by decide)⟩

/-- C10: For a context whose deadline has already passed at call time,
`NewClientWithOptions` sets the health-check timeout to the (zero or
negative) difference between the deadline and the current time; the
one-minute default is not used merely because the deadline expired. -/
theorem healthCheckTimeout_expired_deadline (s : Server) (ctx : Context)
    (now : Int) (options : ClientOptions) (d : Int)
    (h1 : ctx.deadline = some d) (h2 : d ≤ now) :
    (NewClientWithOptions s ctx now
        options).ConnectionOptions.HealthCheckTimeout = d - now ∧
    (NewClientWithOptions s ctx now
        options).ConnectionOptions.HealthCheckTimeout ≤ 0 := by
  constructor
  · simp [NewClientWithOptions, timeoutFromContext, h1]
  · simp [NewClientWithOptions, timeoutFromContext, h1]
    omega

/-- Witness for C10: deadline at t=4 ns, call at t=10 ns gives timeout −6 ns,
which is ≤ 0 (the one-minute default is not used). -/
theorem healthCheckTimeout_expired_deadline_witness :
    (NewClientWithOptions serverX ⟨some 4⟩ 10
        optsX).ConnectionOptions.HealthCheckTimeout = 4 - 10 ∧
    (NewClientWithOptions serverX ⟨some 4⟩ 10
        optsX).ConnectionOptions.HealthCheckTimeout ≤ 0 :=
  healthCheckTimeout_expired_deadline serverX ⟨some 4⟩ 10 optsX 4 rfl (by decide)

/-- C4: Option combinators are applied strictly in the order passed to
`NewServer` with last writer winning per field: `WithPersistenceDisabled()`
followed by `WithDatabaseFilePath "x.db"` yields, from any starting
configuration, `Ephemeral = false` and `DatabaseFilePath = "x.db"`. -/
theorem options_applied_in_order_last_writer_wins (c : Config) :
    (applyOptions c
      [WithPersistenceDisabled, WithDatabaseFilePath "x.db"]).Ephemeral
        = false ∧
    (applyOptions c
      [WithPersistenceDisabled, WithDatabaseFilePath "x.db"]).DatabaseFilePath
        = "x.db" :=
  ⟨rfl, rfl⟩

/-- C5: Every sequence of documented option combinators applied to the
default configuration yields a configuration in which exactly one persistence
mode is active (ephemeral XOR file-backed); the mode is decided solely by the
`Ephemeral` flag, `DatabaseFilePath` being read only in file-backed mode. -/
theorem documented_options_preserve_persistence_invariant
    (opts : List DocumentedOption) :
    persistenceModeInvariant
      (applyOptions defaultConfig (opts.map DocumentedOption.toServerOption)) := by
  unfold persistenceModeInvariant isEphemeralMode isFileBackedMode
  cases h : (applyOptions defaultConfig
      (opts.map DocumentedOption.toServerOption)).Ephemeral <;> simp [h]

/-- C8: `WithNamespaces` is cumulative: it appends its arguments to the
existing namespace list, and applying `WithNamespaces ["a"]` then
`WithNamespaces ["b"]` to a configuration with an empty namespace list yields
`["a", "b"]` in that order. -/
theorem withNamespaces_cumulative (c : Config) (ns : List String) :
    (WithNamespaces ns c).Namespaces = c.Namespaces ++ ns ∧
    (c.Namespaces = [] →
      (applyOptions c
        [WithNamespaces ["a"], WithNamespaces ["b"]]).Namespaces = ["a", "b"]) := by
  refine ⟨rfl, fun h => ?_⟩
  simp [applyOptions, WithNamespaces, h]

/-- Witness for C8 at the default configuration, whose namespace list is
empty. -/
theorem withNamespaces_cumulative_witness :
    (WithNamespaces ["b"] (WithNamespaces ["a"] defaultConfig)).Namespaces =
      (WithNamespaces ["a"] defaultConfig).Namespaces ++ ["b"] ∧
    (applyOptions defaultConfig
      [WithNamespaces ["a"], WithNamespaces ["b"]]).Namespaces = ["a", "b"] :=
  ⟨(withNamespaces_cumulative (WithNamespaces ["a"] defaultConfig) ["b"]).1,
   (withNamespaces_cumulative defaultConfig ["b"]).2 rfl⟩

/-- C6: Whenever schema setup does not fail, `NewServer` invokes
`sqlite.CreateNamespaces` — regardless of whether schema setup ran or was
skipped — with exactly one descriptor per configured namespace, each built
from the converted configuration's current cluster name and the namespace
name, in configuration order. -/
theorem newServer_creates_namespaces_unconditionally (opts : List ServerOption)
    (env : Env) (c0 : Config) (h1 : env.newDefaultConfig = Except.ok c0)
    (h2 : env.setupSchema = Except.ok ()) :
    (NewServer opts env).1.createNamespacesArg =
      some ((applyOptions c0 opts).Namespaces.map
        (fun ns => NamespaceConfig.mk
          (Convert (applyOptions c0 opts)).CurrentClusterName ns false)) := by
  by_cases hE : (applyOptions c0 opts).Ephemeral = true
  · simp [NewServer, h1, hE, h2, newServerTail_trace]
  · simp only [Bool.not_eq_true] at hE
    cases hstat : env.stat (applyOptions c0 opts).DatabaseFilePath <;>
      simp [NewServer, h1, hE, hstat, h2, newServerTail_trace]

/-- Witness for C6: with namespaces `a` then `b` configured, the descriptors
passed to `sqlite.CreateNamespaces` are exactly those two, in order, under
the fixed current cluster name. -/
theorem newServer_creates_namespaces_unconditionally_witness :
    (NewServer [WithNamespaces ["a", "b"]] envAllOk).1.createNamespacesArg =
      some [⟨"active", "a", false⟩, ⟨"active", "b", false⟩] :=
  (newServer_creates_namespaces_unconditionally [WithNamespaces ["a", "b"]]
      envAllOk defaultConfig rfl rfl).trans rfl

/-- C9: For a file-backed configuration, schema setup runs only when the stat
of `DatabaseFilePath` fails with a does-not-exist error; any other stat error
skips schema setup silently and construction proceeds exactly as if the file
existed. -/
theorem newServer_statError_skips_setup (opts : List ServerOption) (env : Env)
    (c0 : Config) (e : String) (h1 : env.newDefaultConfig = Except.ok c0)
    (h2 : (applyOptions c0 opts).Ephemeral = false)
    (h3 : env.stat (applyOptions c0 opts).DatabaseFilePath =
      StatResult.otherError e) :
    (NewServer opts env).1.schemaSetupRan = false ∧
    NewServer opts env =
      NewServer opts { env with stat := fun _ => StatResult.statOk } := by
  constructor
  · simp only [NewServer, h1, h2, Bool.false_eq_true, if_false, h3]
    simp [newServerTail_trace]
  · simp [NewServer, h1, h2, h3]

/-- A successful environment whose stat call fails with a permission-style
error rather than a does-not-exist error. -/
def envStatDenied : Env :=
  { envAllOk with stat := fun _ => .otherError "permission denied" }

/-- Witness for C9: under a permission-denied stat, schema setup is skipped
and the construction result coincides with the one where the file exists. -/
theorem newServer_statError_skips_setup_witness :
    (NewServer [] envStatDenied).1.schemaSetupRan = false ∧
    NewServer [] envStatDenied =
      NewServer [] { envStatDenied with stat := fun _ => StatResult.statOk } :=
  newServer_statError_skips_setup [] envStatDenied defaultConfig
    "permission denied" rfl rfl rfl

/-- C7: Every failure during `NewServer` — schema setup, namespace creation,
authorizer construction, or claim-mapper construction — is fatal (the result
is an error, no server value), wraps the underlying cause, and carries a
message label identifying which step failed; the four labels are pairwise
distinct. -/
theorem newServer_failures_fatal_and_identified :
    (∀ (opts : List ServerOption) (env : Env) (c0 : Config) (e : String),
      env.newDefaultConfig = Except.ok c0 →
      env.setupSchema = Except.error e →
      ((applyOptions c0 opts).Ephemeral = true ∨
        env.stat (applyOptions c0 opts).DatabaseFilePath = StatResult.notExist) →
      (NewServer opts env).2 = Except.error ⟨"error setting up schema: ", e⟩) ∧
    (∀ (opts : List ServerOption) (env : Env) (c0 : Config) (e : String),
      env.newDefaultConfig = Except.ok c0 →
      env.setupSchema = Except.ok () →
      env.createNamespaces = Except.error e →
      (NewServer opts env).2 = Except.error ⟨"error creating namespaces: ", e⟩) ∧
    (∀ (opts : List ServerOption) (env : Env) (c0 : Config) (e : String),
      env.newDefaultConfig = Except.ok c0 →
      env.setupSchema = Except.ok () →
      env.createNamespaces = Except.ok () →
      env.getAuthorizer = Except.error e →
      (NewServer opts env).2 =
        Except.error ⟨"unable to instantiate authorizer: ", e⟩) ∧
    (∀ (opts : List ServerOption) (env : Env) (c0 : Config) (a : Nat)
        (e : String),
      env.newDefaultConfig = Except.ok c0 →
      env.setupSchema = Except.ok () →
      env.createNamespaces = Except.ok () →
      env.getAuthorizer = Except.ok a →
      env.getClaimMapper = Except.error e →
      (NewServer opts env).2 =
        Except.error ⟨"unable to instantiate claim mapper: ", e⟩) ∧
    (["error setting up schema: ", "error creating namespaces: ",
      "unable to instantiate authorizer: ",
      "unable to instantiate claim mapper: "] : List String).Pairwise (· ≠ ·) := by
  refine ⟨?_, ?_, ?_, ?_, ?_⟩
  · intro opts env c0 e h1 h2 h3
    rcases h3 with hE | hstat
    · simp [NewServer, h1, hE, h2]
    · by_cases hE : (applyOptions c0 opts).Ephemeral = true
      · simp [NewServer, h1, hE, h2]
      · simp only [Bool.not_eq_true] at hE
        simp [NewServer, h1, hE, hstat, h2]
  · intro opts env c0 e h1 h2 h3
    by_cases hE : (applyOptions c0 opts).Ephemeral = true
    · simp [NewServer, h1, hE, h2, newServerTail, h3]
    · simp only [Bool.not_eq_true] at hE
      cases hstat : env.stat (applyOptions c0 opts).DatabaseFilePath <;>
        simp [NewServer, h1, hE, hstat, h2, newServerTail, h3]
  · intro opts env c0 e h1 h2 h3 h4
    by_cases hE : (applyOptions c0 opts).Ephemeral = true
    · simp [NewServer, h1, hE, h2, newServerTail, h3, h4]
    · simp only [Bool.not_eq_true] at hE
      cases hstat : env.stat (applyOptions c0 opts).DatabaseFilePath <;>
        simp [NewServer, h1, hE, hstat, h2, newServerTail, h3, h4]
  · intro opts env c0 a e h1 h2 h3 h4 h5
    by_cases hE : (applyOptions c0 opts).Ephemeral = true
    · simp [NewServer, h1, hE, h2, newServerTail, h3, h4, h5]
    · simp only [Bool.not_eq_true] at hE
      cases hstat : env.stat (applyOptions c0 opts).DatabaseFilePath <;>
        simp [NewServer, h1, hE, hstat, h2, newServerTail, h3, h4, h5]
  · decide

/-- Environment in which schema setup fails (the database file is absent, so
setup is attempted). -/
def envSchemaFail : Env :=
  { envAllOk with stat := fun _ => .notExist, setupSchema := .error "boom" }

/-- Environment in which namespace creation fails. -/
def envNsFail : Env := { envAllOk with createNamespaces := .error "boom" }

/-- Environment in which authorizer construction fails. -/
def envAuthFail : Env := { envAllOk with getAuthorizer := .error "boom" }

/-- Environment in which claim-mapper construction fails. -/
def envClaimFail : Env := { envAllOk with getClaimMapper := .error "boom" }

/-- Witness for C7: each of the four failing environments produces the
matching labelled error wrapping the cause. -/
theorem newServer_failures_fatal_and_identified_witness :
    (NewServer [] envSchemaFail).2 =
      Except.error ⟨"error setting up schema: ", "boom"⟩ ∧
    (NewServer [] envNsFail).2 =
      Except.error ⟨"error creating namespaces: ", "boom"⟩ ∧
    (NewServer [] envAuthFail).2 =
      Except.error ⟨"unable to instantiate authorizer: ", "boom"⟩ ∧
    (NewServer [] envClaimFail).2 =
      Except.error ⟨"unable to instantiate claim mapper: ", "boom"⟩ :=
  ⟨newServer_failures_fatal_and_identified.1 [] envSchemaFail defaultConfig
      "boom" rfl rfl (Or.inr rfl),
   newServer_failures_fatal_and_identified.2.1 [] envNsFail defaultConfig
      "boom" rfl rfl rfl,
   newServer_failures_fatal_and_identified.2.2.1 [] envAuthFail defaultConfig
      "boom" rfl rfl rfl rfl,
   newServer_failures_fatal_and_identified.2.2.2.1 [] envClaimFail
      defaultConfig 0 "boom" rfl rfl rfl rfl rfl⟩
